import Mathlib

/-!
Verification of the decentralized agent-discovery/governance repository.

The Python sources are shallowly embedded: JSON values are an inductive
type, `json.dumps(..., sort_keys=True, separators=(',', ':'))` (with and
without `ensure_ascii=False`) is modelled character-for-character after
CPython's pure-python encoder, and the wallet / validator / runtime
functions are translated into pure Lean functions, with external effects
(ECDSA recovery, the DID resolver subprocess, HTTP calls, SHA-256) passed
in as explicit environment parameters.
-/

set_option maxRecDepth 10000

deriving instance DecidableEq for Except

/-! ## JSON data model (Python values handled by `json.dumps`) -/

mutual

inductive Json where
  | null : Json
  | bool (b : Bool) : Json
  | num (n : Int) : Json
  | str (s : String) : Json
  | arr (xs : JsonList) : Json
  | obj (fs : JsonObj) : Json
  deriving DecidableEq

inductive JsonList where
  | nil : JsonList
  | cons (hd : Json) (tl : JsonList) : JsonList
  deriving DecidableEq

inductive JsonObj where
  | nil : JsonObj
  | cons (key : String) (val : Json) (tl : JsonObj) : JsonObj
  deriving DecidableEq

end

/-! ## CPython `json` string escaping

`py_encode_basestring` (used with `ensure_ascii=False`) escapes `\`, `"`,
the C0 control characters (with short forms for \b \t \n \f \r);
`py_encode_basestring_ascii` (the `ensure_ascii=True` default)
additionally escapes every character outside U+0020..U+007E as `\uXXXX`
(as a surrogate pair above U+FFFF). -/

def hexDigitChar (n : Nat) : Char :=
  if n < 10 then Char.ofNat (48 + n) else Char.ofNat (87 + n)

def uEscape (n : Nat) : String :=
  String.mk ['\\', 'u', hexDigitChar ((n / 4096) % 16), hexDigitChar ((n / 256) % 16),
    hexDigitChar ((n / 16) % 16), hexDigitChar (n % 16)]

def escapeChar (ensureAscii : Bool) (c : Char) : String :=
  if c = '"' then "\\\""
  else if c = '\\' then "\\\\"
  else if c = '\n' then "\\n"
  else if c = '\r' then "\\r"
  else if c = '\t' then "\\t"
  else if c.toNat = 8 then "\\b"
  else if c.toNat = 12 then "\\f"
  else if c.toNat < 32 then uEscape c.toNat
  else if ensureAscii && 126 < c.toNat then
    if c.toNat < 65536 then uEscape c.toNat
    else uEscape (55296 + (c.toNat - 65536) / 1024) ++ uEscape (56320 + (c.toNat - 65536) % 1024)
  else String.singleton c

def encodeStringPy (ensureAscii : Bool) (s : String) : String :=
  "\"" ++ String.join (s.data.map (escapeChar ensureAscii)) ++ "\""

/-! ## Key sorting (`sort_keys=True`)

Python compares `str` keys lexicographically by code point.  `sortAllKeys`
recursively rewrites every object so its fields are in that order, which
is what `json.dumps(..., sort_keys=True)` emits. -/

def charListLt : List Char → List Char → Bool
  | _ :: _, [] => false
  | [], _ :: _ => true
  | [], [] => false
  | a :: as, b :: bs =>
    if a.toNat < b.toNat then true
    else if b.toNat < a.toNat then false
    else charListLt as bs

def pyStrLt (a b : String) : Bool :=
  charListLt a.data b.data

def objInsert (k : String) (v : Json) : JsonObj → JsonObj
  | .nil => .cons k v .nil
  | .cons k2 v2 tl =>
    if pyStrLt k k2 then .cons k v (.cons k2 v2 tl)
    else .cons k2 v2 (objInsert k v tl)

def objSortFields : JsonObj → JsonObj
  | .nil => .nil
  | .cons k v tl => objInsert k v (objSortFields tl)

mutual

def sortAllKeys : Json → Json
  | .null => .null
  | .bool b => .bool b
  | .num n => .num n
  | .str s => .str s
  | .arr xs => .arr (sortAllKeysList xs)
  | .obj fs => .obj (objSortFields (sortAllKeysObj fs))

def sortAllKeysList : JsonList → JsonList
  | .nil => .nil
  | .cons h t => .cons (sortAllKeys h) (sortAllKeysList t)

def sortAllKeysObj : JsonObj → JsonObj
  | .nil => .nil
  | .cons k v tl => .cons k (sortAllKeys v) (sortAllKeysObj tl)

end

/-! ## Serialization with `separators=(',', ':')` over already-sorted values -/

mutual

def dumpsVal (ea : Bool) : Json → String
  | .null => "null"
  | .bool true => "true"
  | .bool false => "false"
  | .num n => toString n
  | .str s => encodeStringPy ea s
  | .arr .nil => "[]"
  | .arr (.cons h t) => "[" ++ dumpsVal ea h ++ dumpsListRest ea t ++ "]"
  | .obj .nil => "\x7b\x7d"
  | .obj (.cons k v tl) =>
    "\x7b" ++ encodeStringPy ea k ++ ":" ++ dumpsVal ea v ++ dumpsObjRest ea tl ++ "\x7d"

def dumpsListRest (ea : Bool) : JsonList → String
  | .nil => ""
  | .cons h t => "," ++ dumpsVal ea h ++ dumpsListRest ea t

def dumpsObjRest (ea : Bool) : JsonObj → String
  | .nil => ""
  | .cons k v tl => "," ++ encodeStringPy ea k ++ ":" ++ dumpsVal ea v ++ dumpsObjRest ea tl

end

/-- Model of `json.dumps(v, sort_keys=True, separators=(',', ':'))`;
`ea = false` adds `ensure_ascii=False`. -/
def pyDumpsCanonical (ea : Bool) (v : Json) : String :=
  dumpsVal ea (sortAllKeys v)

/-! ## UTF-8 encoding (`.encode('utf-8')`) -/

def utf8Char (c : Char) : List Nat :=
  let n := c.toNat
  if n < 128 then [n]
  else if n < 2048 then [192 + n / 64, 128 + n % 64]
  else if n < 65536 then [224 + n / 4096, 128 + (n / 64) % 64, 128 + n % 64]
  else [240 + n / 262144, 128 + (n / 4096) % 64, 128 + (n / 64) % 64, 128 + n % 64]

def utf8Bytes (s : String) : List Nat :=
  (s.data.map utf8Char).flatten

/-- Serialization used as VC/VP signing input by `IdentityWallet.create_vp`,
`IdentityWallet.sign_message` callers, the Holder Runtime, the Verifier
Runtime and the Issuer's `sign_vc`: `json.dumps(payload, sort_keys=True,
separators=(',', ':'))` — `ensure_ascii` is left at its default `True`. -/
def signingSerialization (v : Json) : String :=
  pyDumpsCanonical true v

/-- Serialization used by `calculate_memory_hash`, `get_snapshot_hash` and
`_get_local_snapshot_hash`: same as `signingSerialization` but with
`ensure_ascii=False`. -/
def snapshotSerialization (v : Json) : String :=
  pyDumpsCanonical false v

/-- Model of `calculate_memory_hash` (src/infrastructure/utils.py): canonical
serialization, UTF-8 encoding, SHA-256 hex digest.  SHA-256 itself is the
`hashlib` library primitive and enters the model as the parameter `sha`. -/
def calculate_memory_hash (sha : List Nat → String) (memory_data : Json) : String :=
  sha (utf8Bytes (snapshotSerialization memory_data))

/-! ## ASCII-only values serialize identically in the two modes -/

mutual

def jsonAsciiOnly : Json → Bool
  | .null => true
  | .bool _ => true
  | .num _ => true
  | .str s => s.data.all (fun c => c.toNat ≤ 126)
  | .arr xs => jsonListAsciiOnly xs
  | .obj fs => jsonObjAsciiOnly fs

def jsonListAsciiOnly : JsonList → Bool
  | .nil => true
  | .cons h t => jsonAsciiOnly h && jsonListAsciiOnly t

def jsonObjAsciiOnly : JsonObj → Bool
  | .nil => true
  | .cons k v tl =>
    k.data.all (fun c => c.toNat ≤ 126) && jsonAsciiOnly v && jsonObjAsciiOnly tl

end

/-! ## Python string helpers: `in`, `str.replace`, slicing, `"; ".join` -/

def listStartsWith : List Char → List Char → Bool
  | [], _ => true
  | _ :: _, [] => false
  | p :: ps, c :: cs => (p = c) && listStartsWith ps cs

/-- Python `pat in s` (substring containment). -/
def listContainsPat (pat : List Char) : List Char → Bool
  | [] => listStartsWith pat []
  | c :: cs => listStartsWith pat (c :: cs) || listContainsPat pat cs

def pyInStr (pat s : String) : Bool :=
  listContainsPat pat.data s.data

/-- Python `s.replace(pat, rep)` for a non-empty `pat`: replace all
non-overlapping occurrences left to right.  The first argument counts
characters of a just-matched occurrence still to be consumed. -/
def listReplaceAux (pat rep : List Char) : Nat → List Char → List Char
  | _, [] => []
  | Nat.succ skip, _ :: cs => listReplaceAux pat rep skip cs
  | 0, c :: cs =>
    if listStartsWith pat (c :: cs) && !pat.isEmpty then
      rep ++ listReplaceAux pat rep (pat.length - 1) cs
    else
      c :: listReplaceAux pat rep 0 cs

def listReplace (pat rep cs : List Char) : List Char :=
  listReplaceAux pat rep 0 cs

def pyReplace (s pat rep : String) : String :=
  String.mk (listReplace pat.data rep.data s.data)

def joinSemiSep : List String → String
  | [] => ""
  | [x] => x
  | x :: y :: xs => x ++ "; " ++ joinSemiSep (y :: xs)

/-! ## The Verifier's timestamp regex and `datetime.strptime` -/

def isDigitChar (c : Char) : Bool :=
  48 ≤ c.toNat && c.toNat ≤ 57

/-- Shape of the regex `(\d{4}-\d{2}-\d{2} \d{2}:\d{2}:\d{2})`. -/
def tsShape : List (Char → Bool) :=
  [isDigitChar, isDigitChar, isDigitChar, isDigitChar, (· = '-'),
   isDigitChar, isDigitChar, (· = '-'), isDigitChar, isDigitChar, (· = ' '),
   isDigitChar, isDigitChar, (· = ':'), isDigitChar, isDigitChar, (· = ':'),
   isDigitChar, isDigitChar]

def matchShape : List (Char → Bool) → List Char → Option (List Char)
  | [], _ => some []
  | _ :: _, [] => none
  | p :: ps, c :: cs => if p c then (matchShape ps cs).map (fun r => c :: r) else none

def searchShape (shape : List (Char → Bool)) : List Char → Option (List Char)
  | [] => matchShape shape []
  | c :: cs =>
    match matchShape shape (c :: cs) with
    | some r => some r
    | none => searchShape shape cs

/-- Model of `re.search(r"(\d{4}-\d{2}-\d{2} \d{2}:\d{2}:\d{2})", text)`:
the leftmost match (`\d` restricted to the ASCII digits that occur in this
system's timestamps). -/
def reSearchTimestamp (s : String) : Option String :=
  (searchShape tsShape s.data).map String.mk

def digitsToNat (cs : List Char) : Nat :=
  cs.foldl (fun a c => a * 10 + (c.toNat - 48)) 0

def isLeapYear (y : Nat) : Bool :=
  (y % 4 = 0 && y % 100 ≠ 0) || y % 400 = 0

def daysInMonth (y m : Nat) : Nat :=
  if m = 2 then (if isLeapYear y then 29 else 28)
  else if m = 4 || m = 6 || m = 9 || m = 11 then 30
  else 31

/-- Days since 1970-01-01 of a proleptic-Gregorian date (Hinnant's
`days_from_civil`). -/
def daysFromCivil (y : Int) (m d : Nat) : Int :=
  let y2 : Int := if m ≤ 2 then y - 1 else y
  let era : Int := (if 0 ≤ y2 then y2 else y2 - 399) / 400
  let yoe : Int := y2 - era * 400
  let mp : Int := (Int.ofNat m + 9) % 12
  let doy : Int := (153 * mp + 2) / 5 + Int.ofNat d - 1
  let doe : Int := yoe * 365 + yoe / 4 - yoe / 100 + doy
  era * 146097 + doe - 719468

/-- Model of `datetime.strptime(s, "%Y-%m-%d %H:%M:%S")` followed by
`.replace(tzinfo=timezone.utc)`, as a UTC epoch-second value.  `none`
covers both a directive-regex failure and a `datetime` constructor
`ValueError` (month out of 1..12, day past the month's end, hour > 23,
second 60/61, year 0) — the caller treats both identically. -/
def strptimeYmdHmsUtc (s : String) : Option Int :=
  let cs := s.data
  if cs.length = 19 && (matchShape tsShape cs).isSome then
    let y := digitsToNat (cs.take 4)
    let mo := digitsToNat ((cs.drop 5).take 2)
    let d := digitsToNat ((cs.drop 8).take 2)
    let h := digitsToNat ((cs.drop 11).take 2)
    let mi := digitsToNat ((cs.drop 14).take 2)
    let sec := digitsToNat ((cs.drop 17).take 2)
    if 1 ≤ y && 1 ≤ mo && mo ≤ 12 && 1 ≤ d && d ≤ daysInMonth y mo &&
        h ≤ 23 && mi ≤ 59 && sec ≤ 59 then
      some (daysFromCivil (Int.ofNat y) mo d * 86400 +
        Int.ofNat (h * 3600 + mi * 60 + sec))
    else none
  else none

/-! ## `VerifierRuntime._verify_tool_outputs` (src/agents/verifier/runtime.py) -/

/-- Model of `_verify_tool_outputs(response_text, expected_hash)`.  `now`
is `datetime.now(timezone.utc)` in epoch seconds.  Note the `Time Parse
Err` branch appends a label but leaves `passed` untouched. -/
def verify_tool_outputs (now : Int) (response_text expected_hash : String) :
    Bool × String :=
  let hashOk := pyInStr expected_hash response_text
  let d1 : List String :=
    if hashOk then ["Hash Match"]
    else ["Hash Mismatch (Exp: " ++ String.mk (expected_hash.data.take 6) ++ "...)"]
  match reSearchTimestamp response_text with
  | none => (false, joinSemiSep (d1 ++ ["No Time Found"]))
  | some ts =>
    match strptimeYmdHmsUtc ts with
    | none => (hashOk, joinSemiSep (d1 ++ ["Time Parse Err"]))
    | some t =>
      if (now - t).natAbs ≤ 120 then (hashOk, joinSemiSep (d1 ++ ["Time Fresh"]))
      else (false, joinSemiSep (d1 ++ ["Time Stale"]))

/-! ## `VerifierRuntime._construct_probe_payload` (src/agents/verifier/runtime.py) -/

structure ProbeTemplate where
  template_str : String
  required_tool_names : List String

structure ProbeInput where
  text : String

structure ProbePayload where
  task_id : String
  prompt : String
  verifier_did : String
  timestamp : Int
  timeout_ms : Nat

/-- Loop `for i, tool_name in enumerate(required_tools): final_prompt =
final_prompt.replace(f"{{required_tools[i]}}", tool_name)`. -/
def renderRequiredTools (prompt : String) : List String → Nat → String
  | [], _ => prompt
  | t :: ts, i =>
    renderRequiredTools
      (pyReplace prompt ("\x7b\x7brequired_tools[" ++ toString i ++ "]\x7d\x7d") t) ts (i + 1)

/-- Model of `_construct_probe_payload` with the `random.choice` results
(`tpl`, `inp`), the fresh uuid, the wall clock and the `hashlib.sha256`
primitive supplied as parameters.  Returns (payload, expected_hash,
final_prompt, raw input text, timeout) as the source does. -/
def construct_probe_payload (sha : List Nat → String) (tpl : ProbeTemplate)
    (inp : ProbeInput) (verifier_did uuid : String) (timestamp : Int) :
    ProbePayload × String × String × String × Nat :=
  let input_text := inp.text
  let prompt0 := pyReplace tpl.template_str "\x7b\x7binput_text\x7d\x7d" input_text
  let final_prompt := renderRequiredTools prompt0 tpl.required_tool_names 0
  let dynamic_timeout :=
    2000 + input_text.length * 50 + (if tpl.required_tool_names.isEmpty then 0 else 2000)
  let clamped := max 3000 (min dynamic_timeout 100000)
  let payload : ProbePayload :=
    { task_id := "task-" ++ uuid, prompt := final_prompt, verifier_did := verifier_did,
      timestamp := timestamp, timeout_ms := clamped }
  (payload, sha (utf8Bytes input_text), final_prompt, input_text, clamped)

/-! ## Python dict/JSON access helpers -/

def objLookup : JsonObj → String → Option Json
  | .nil, _ => none
  | .cons k2 v tl, k => if k2 = k then some v else objLookup tl k

/-- Python `d.get(k)` / `k in d` on a JSON object (`none` if `j` is not an
object or lacks the key). -/
def jGet? : Json → String → Option Json
  | .obj fs, k => objLookup fs k
  | _, _ => none

def jGetStr? (j : Json) (k : String) : Option String :=
  match jGet? j k with
  | some (.str s) => some s
  | _ => none

def objRemoveKey : JsonObj → String → JsonObj
  | .nil, _ => .nil
  | .cons k2 v tl, k => if k2 = k then tl else .cons k2 v (objRemoveKey tl k)

/-- Python `d.copy()` followed by `del d[k]` (no-op when the key or object
shape is absent, matching the guarded `if k in payload: del payload[k]`). -/
def jsonRemoveKey : Json → String → Json
  | .obj fs, k => .obj (objRemoveKey fs k)
  | j, _ => j

def objSetKey : JsonObj → String → Json → JsonObj
  | .nil, k, v => .cons k v .nil
  | .cons k2 v2 tl, k, v =>
    if k2 = k then .cons k2 v tl else .cons k2 v2 (objSetKey tl k v)

/-- Python `d[k] = v` (replace in place, else append at the end). -/
def jSetKey : Json → String → Json → Json
  | .obj fs, k, v => .obj (objSetKey fs k v)
  | j, _, _ => j

def jsonListOfList : List Json → JsonList
  | [] => .nil
  | x :: xs => .cons x (jsonListOfList xs)

/-- Python `s.split(":")`. -/
def splitCharList (sep : Char) : List Char → List (List Char)
  | [] => [[]]
  | c :: cs =>
    let r := splitCharList sep cs
    if c = sep then [] :: r
    else
      match r with
      | [] => [[c]]
      | h :: t => (c :: h) :: t

def pySplitColon (s : String) : List String :=
  (splitCharList ':' s.data).map String.mk

def pyLower (s : String) : String :=
  String.mk (s.data.map Char.toLower)

/-- `addr.lower().replace("0x", "")` as used by `check_authorization`. -/
def normAddr (s : String) : String :=
  pyReplace (pyLower s) "0x" ""

/-- Rendering of a possibly-missing JSON value inside an f-string
(`None` for a missing key, the raw text for a string). -/
def pyFStrOptJson : Option Json → String
  | none => "None"
  | some (.str s) => s
  | some v => dumpsVal false v

/-! ## `datetime.fromisoformat` (restricted to this system's timestamps)

The validator parses `validUntil` strings of the issuer's shape
`YYYY-MM-DDTHH:MM:SSZ` after a `.replace("Z", "+00:00")`.  The model
accepts `YYYY-MM-DD` + (`T` or space) + `HH:MM:SS` + a mandatory
`±HH:MM` offset and yields UTC epoch seconds; every other string maps to
`none`.  `none` stands for the source's warning branch: both a
`fromisoformat` `ValueError` and the `TypeError` raised when comparing an
offset-naive result against `datetime.now(timezone.utc)` land in the same
`except` clause. -/
def fromisoformatAware (s : String) : Option Int :=
  let cs := s.data
  if cs.length = 25 && (matchShape tsShape (cs.take 10 ++ [' '] ++ ((cs.drop 11).take 8))).isSome
      && ((cs.get? 10 = some 'T') || (cs.get? 10 = some ' '))
      && ((cs.get? 19 = some '+') || (cs.get? 19 = some '-'))
      && ((cs.drop 20).take 2).all isDigitChar && (cs.get? 22 = some ':')
      && ((cs.drop 23).take 2).all isDigitChar then
    let y := digitsToNat (cs.take 4)
    let mo := digitsToNat ((cs.drop 5).take 2)
    let d := digitsToNat ((cs.drop 8).take 2)
    let h := digitsToNat ((cs.drop 11).take 2)
    let mi := digitsToNat ((cs.drop 14).take 2)
    let sec := digitsToNat ((cs.drop 17).take 2)
    let offH := digitsToNat ((cs.drop 20).take 2)
    let offM := digitsToNat ((cs.drop 23).take 2)
    if 1 ≤ y && 1 ≤ mo && mo ≤ 12 && 1 ≤ d && d ≤ daysInMonth y mo &&
        h ≤ 23 && mi ≤ 59 && sec ≤ 59 && offH ≤ 23 && offM ≤ 59 then
      let naive := daysFromCivil (Int.ofNat y) mo d * 86400 +
        Int.ofNat (h * 3600 + mi * 60 + sec)
      let off : Int := Int.ofNat (offH * 3600 + offM * 60)
      some (if cs.get? 19 = some '+' then naive - off else naive + off)
    else none
  else none

/-! ## `DIDValidator` (src/infrastructure/validator.py)

External effects are a deterministic environment: `recoverAddr` models
`w3.eth.account.recover_message` over the personal-message digest of the
text (`.error e` = the recovery step raised, message `e`), and
`resolveDid` models the whole resolver-subprocess retry loop (`none` =
all five attempts failed). -/

structure ValidatorEnv where
  recoverAddr : String → String → Except String String
  resolveDid : String → Option Json

abbrev DidCache := List (String × Json)

def cacheLookup (c : DidCache) (did : String) : Option Json :=
  match c with
  | [] => none
  | (d, doc) :: rest => if d = did then some doc else cacheLookup rest did

def cacheRemove (c : DidCache) (did : String) : DidCache :=
  match c with
  | [] => []
  | (d, doc) :: rest => if d = did then rest else (d, doc) :: cacheRemove rest did

/-- Model of `resolve_did`: in-memory cache first, then the external
resolver; a successful resolution is cached. -/
def resolve_did (env : ValidatorEnv) (cache : DidCache) (did : String) :
    Option Json × DidCache :=
  match cacheLookup cache did with
  | some doc => (some doc, cache)
  | none =>
    match env.resolveDid did with
    | some doc => (some doc, (did, doc) :: cache)
    | none => (none, cache)

def authMethodMatches (target : String) (method : Json) : Bool :=
  (match jGetStr? method "blockchainAccountId" with
   | some bca => normAddr ((pySplitColon bca).getLastD "") = target
   | none => false) ||
  (match jGetStr? method "publicKeyHex" with
   | some pk => normAddr pk = target
   | none => false)

def anyMethodMatches (target : String) : JsonList → Bool
  | .nil => false
  | .cons m rest => authMethodMatches target m || anyMethodMatches target rest

/-- Model of `check_authorization(did_doc, recovered_address)`. -/
def check_authorization (didDoc : Option Json) (recovered : String) : Bool :=
  match didDoc with
  | none => false
  | some doc =>
    match jGet? doc "verificationMethod" with
    | some (.arr ms) => anyMethodMatches (normAddr recovered) ms
    | _ => false

/-- Model of `verify_request_signature(text_payload, signature,
claimed_did)`.  The result is `none` when the Python function falls off
the end of the cache-retry block and implicitly returns `None` (the
`else`-guarded unauthorized return is unreachable there, because a
successful `resolve_did` always leaves the document in the cache). -/
def verify_request_signature (env : ValidatorEnv) (cache : DidCache)
    (text_payload signature claimed_did : String) :
    Option (Bool × String) × DidCache :=
  if signature = "" || claimed_did = "" then
    (some (false, "缺少签名或DID"), cache)
  else
    match env.recoverAddr text_payload signature with
    | .error e => (some (false, "验签过程异常: " ++ e), cache)
    | .ok recovered =>
      match resolve_did env cache claimed_did with
      | (none, cache1) => (some (false, "DID文档解析失败: " ++ claimed_did), cache1)
      | (some doc, cache1) =>
        if check_authorization (some doc) recovered then
          (some (true, "验证通过"), cache1)
        else if (cacheLookup cache1 claimed_did).isSome then
          let cache2 := cacheRemove cache1 claimed_did
          match resolve_did env cache2 claimed_did with
          | (some docFresh, cache3) =>
            if check_authorization (some docFresh) recovered then
              (some (true, "重试通过"), cache3)
            else (none, cache3)
          | (none, cache3) => (none, cache3)
        else
          (some (false, "签名者 " ++ recovered ++ " 未被 " ++ claimed_did ++ " 授权"), cache1)

inductive PyErr where
  | typeError
  | keyError (k : String)
  deriving DecidableEq

structure VcRes where
  valid : Bool
  error : String
  deriving DecidableEq

/-- Issuer-check plus signature-check tail of `_verify_single_vc`
(validator.py lines 201-222).  The trusted-issuer branch is commented out
in the source (`pass`), so it has no effect here either.  The caller
unpacks `valid_sig, reason = self.verify_request_signature(...)`, so a
`None` from that call is a `TypeError`. -/
def vcSignatureStage (env : ValidatorEnv) (cache : DidCache) (vc : Json) :
    Except PyErr VcRes × DidCache :=
  match jGet? vc "issuer" with
  | none => (.error (.keyError "issuer"), cache)
  | some issuerVal =>
    match issuerVal with
    | .str issuer_did =>
      let vc_payload := jsonRemoveKey vc "proof"
      let serialized := signingSerialization vc_payload
      match jGet? vc "proof" with
      | none => (.error (.keyError "proof"), cache)
      | some proof =>
        match jGet? proof "jws" with
        | some (.str jws) =>
          match verify_request_signature env cache serialized jws issuer_did with
          | (none, cache1) => (.error .typeError, cache1)
          | (some (valid_sig, reason), cache1) =>
            if valid_sig then (.ok ⟨true, ""⟩, cache1)
            else (.ok ⟨false, "VC签名无效: " ++ reason⟩, cache1)
        | some _ => (.error .typeError, cache)
        | none => (.error (.keyError "jws"), cache)
    | _ => (.error .typeError, cache)

/-- Model of `_verify_single_vc(vc, expected_holder)`: subject check,
expiry check (a parse failure or naive/aware comparison `TypeError` is a
printed warning, not a failure), then `vcSignatureStage`. -/
def verify_single_vc (env : ValidatorEnv) (cache : DidCache) (now : Int)
    (vc : Json) (expected_holder : String) : Except PyErr VcRes × DidCache :=
  match jGet? vc "credentialSubject" with
  | none => (.error (.keyError "credentialSubject"), cache)
  | some cs =>
    match jGet? cs "id" with
    | none => (.error (.keyError "id"), cache)
    | some subjId =>
      if subjId ≠ .str expected_holder then (.ok ⟨false, "Subject ID 不匹配"⟩, cache)
      else
        match jGet? vc "validUntil" with
        | none => vcSignatureStage env cache vc
        | some (.str s) =>
          match fromisoformatAware (pyReplace s "Z" "+00:00") with
          | some exp =>
            if now > exp then (.ok ⟨false, "VC 已过期"⟩, cache)
            else vcSignatureStage env cache vc
          | none => vcSignatureStage env cache vc
        | some _ => vcSignatureStage env cache vc

/-- The `for vc in vp_json.get("verifiableCredential", [])` loop of
`verify_vp`. -/
def verifyVcLoop (env : ValidatorEnv) (now : Int) (holder : String) :
    JsonList → DidCache → Except PyErr (Bool × String) × DidCache
  | .nil, cache => (.ok (true, "VP Valid"), cache)
  | .cons vc rest, cache =>
    match verify_single_vc env cache now vc holder with
    | (.error e, cache1) => (.error e, cache1)
    | (.ok res, cache1) =>
      if res.valid then verifyVcLoop env now holder rest cache1
      else (.ok (false, "VC Invalid: " ++ res.error), cache1)

/-- Model of `verify_vp(vp_json, expected_nonce)`. -/
def verify_vp (env : ValidatorEnv) (now : Int) (vp : Json)
    (expected_nonce : String) (cache : DidCache) :
    Except PyErr (Bool × String) × DidCache :=
  let proof := (jGet? vp "proof").getD (.obj .nil)
  if jGet? proof "challenge" ≠ some (.str expected_nonce) then
    (.ok (false, "Nonce mismatch: expected " ++ expected_nonce ++ ", got " ++
      pyFStrOptJson (jGet? proof "challenge")), cache)
  else
    let payload := jsonRemoveKey vp "proof"
    let serialized := signingSerialization payload
    let signature := match jGet? proof "jws" with | some (.str s) => s | _ => ""
    let holder_did :=
      match jGet? vp "holder" with
      | some (.obj fs) => (match objLookup fs "id" with | some (.str s) => s | _ => "")
      | some (.str s) => s
      | _ => ""
    match verify_request_signature env cache serialized signature holder_did with
    | (none, cache1) => (.error .typeError, cache1)
    | (some (valid_sig, reason), cache1) =>
      if valid_sig then
        let vcs := match jGet? vp "verifiableCredential" with
          | some (.arr xs) => xs
          | _ => .nil
        verifyVcLoop env now holder_did vcs cache1
      else
        (.ok (false, "VP Signature Invalid: " ++ reason), cache1)

/-! ## `IdentityWallet` (src/infrastructure/wallet.py) -/

structure IdentityWallet where
  did : String
  private_key : String
  my_vcs : List Json

def objAppendField (fs : JsonObj) (k : String) (v : Json) : JsonObj :=
  match fs with
  | .nil => .cons k v .nil
  | .cons k2 v2 tl => .cons k2 v2 (objAppendField tl k v)

/-- The unsigned VP body built by `create_vp` (insertion order as in the
source; `json.dumps(..., sort_keys=True)` sorts at serialization time). -/
def vpPayload (w : IdentityWallet) : Json :=
  .obj (.cons "@context" (.arr (.cons (.str "https://www.w3.org/2018/credentials/v1") .nil))
    (.cons "type" (.arr (.cons (.str "VerifiablePresentation") .nil))
    (.cons "verifiableCredential" (.arr (jsonListOfList w.my_vcs))
    (.cons "holder" (.str w.did) .nil))))

/-- Model of `IdentityWallet.create_vp(nonce)`: sign the canonical
serialization of the body, then attach the proof block.  `sign` models
`sign_message` (eth-account personal-message signing with the wallet's
private key); `created` is the formatted UTC timestamp. -/
def create_vp (sign : String → String → String) (w : IdentityWallet)
    (nonce created : String) : Json :=
  let payload := vpPayload w
  let signature_hex := sign w.private_key (signingSerialization payload)
  let proof : Json := .obj (.cons "type" (.str "EcdsaSecp256k1RecoverySignature2020")
    (.cons "created" (.str created)
    (.cons "verificationMethod" (.str (w.did ++ "#delegate"))
    (.cons "proofPurpose" (.str "authentication")
    (.cons "challenge" (.str nonce)
    (.cons "jws" (.str signature_hex) .nil))))))
  match payload with
  | .obj fs => .obj (objAppendField fs "proof" proof)
  | j => j

/-! ## Helper predicates and lemmas about the validator -/

/-- Every cached document is exactly what the (deterministic) resolver
environment returns: the invariant `resolve_did` maintains. -/
def CacheCoherent (env : ValidatorEnv) (cache : DidCache) : Prop :=
  ∀ d doc, (d, doc) ∈ cache → env.resolveDid d = some doc

/-- The credential's subject matches the expected holder DID. -/
def vcSubjectOk (vc : Json) (holder : String) : Bool :=
  match jGet? vc "credentialSubject" with
  | some cs => decide (jGet? cs "id" = some (.str holder))
  | none => false

/-- The credential's expiry stage does not reject: `validUntil` absent,
unparseable (warning branch), or parsed and not in the past. -/
def vcNotExpired (now : Int) (vc : Json) : Bool :=
  match jGet? vc "validUntil" with
  | none => true
  | some (.str s) =>
    match fromisoformatAware (pyReplace s "Z" "+00:00") with
    | some exp => decide (now ≤ exp)
    | none => true
  | some _ => true

/-- The credential's own signature recovers to an address authorized by
the issuer DID's document under `env`. -/
def vcSignatureAccepts (env : ValidatorEnv) (vc : Json) : Bool :=
  match jGet? vc "issuer" with
  | some (.str issuer_did) =>
    match jGet? vc "proof" with
    | some proof =>
      match jGet? proof "jws" with
      | some (.str jws) =>
        decide (jws ≠ "") && decide (issuer_did ≠ "") &&
        (match env.recoverAddr (signingSerialization (jsonRemoveKey vc "proof")) jws with
         | .ok addr =>
           (match env.resolveDid issuer_did with
            | some doc => check_authorization (some doc) addr
            | none => false)
         | .error _ => false)
      | _ => false
    | none => false
  | _ => false

/-- All credentials in the list satisfy the acceptance conditions. -/
def vcListAllOk (env : ValidatorEnv) (now : Int) (holder : String) : JsonList → Prop
  | .nil => True
  | .cons vc rest =>
    (vcSubjectOk vc holder = true ∧ vcNotExpired now vc = true ∧
      vcSignatureAccepts env vc = true) ∧ vcListAllOk env now holder rest

/-! ## Concrete toy instantiation (used by witnesses and counterexamples)

A deterministic stand-in for the external ECDSA primitives: a signature
is the signing key joined to the text; recovery recognizes the two known
keys (`kh` = holder delegate of address `0xaa`, `ki` = issuer key of
address `0xii`) and yields the unauthorized junk address `0xzz` for any
other (text, signature) combination — modelling that ECDSA recovery on a
tampered message yields an unrelated address. -/

def toySign (key text : String) : String := key ++ "|" ++ text

def toyRecover (text sig : String) : Except String String :=
  if sig = "kh|" ++ text then .ok "0xaa"
  else if sig = "ki|" ++ text then .ok "0xii"
  else .ok "0xzz"

def docAA : Json :=
  .obj (.cons "verificationMethod" (.arr (.cons (.obj (.cons "blockchainAccountId"
    (.str "eip155:11155111:0xaa") .nil)) .nil)) .nil)

def docII : Json :=
  .obj (.cons "verificationMethod" (.arr (.cons (.obj (.cons "publicKeyHex"
    (.str "0xii") .nil)) .nil)) .nil)

def toyResolve (did : String) : Option Json :=
  if did = "did:ethr:sepolia:0xaa" then some docAA
  else if did = "did:ethr:sepolia:0xii" then some docII
  else none

def toyEnv : ValidatorEnv := ⟨toyRecover, toyResolve⟩

def c2VcBody : Json :=
  .obj (.cons "type" (.arr (.cons (.str "VerifiableCredential")
      (.cons (.str "Audit_License") .nil)))
    (.cons "credentialSubject" (.obj (.cons "id" (.str "did:ethr:sepolia:0xaa") .nil))
    (.cons "issuer" (.str "did:ethr:sepolia:0xii")
    (.cons "validUntil" (.str "2030-01-01T00:00:00Z") .nil))))

def c2Vc : Json :=
  jSetKey c2VcBody "proof"
    (.obj (.cons "jws" (.str (toySign "ki" (signingSerialization c2VcBody))) .nil))

def c2Wallet : IdentityWallet :=
  ⟨"did:ethr:sepolia:0xaa", "kh", [c2Vc]⟩

def c2TamperedVcs : JsonList :=
  .cons (jSetKey c2Vc "credentialSubject"
    (.obj (.cons "id" (.str "did:ethr:sepolia:0xee") .nil))) .nil

def c5Subject : Json := .obj (.cons "id" (.str "did:ethr:sepolia:0xaa") .nil)

def c5VcExpired : Json :=
  .obj (.cons "credentialSubject" c5Subject
    (.cons "validUntil" (.str "2020-01-01T00:00:00Z") .nil))

def c5VcFuture : Json :=
  .obj (.cons "credentialSubject" c5Subject
    (.cons "validUntil" (.str "2030-01-01T00:00:00Z") .nil))

def c5VcNoExpiry : Json :=
  .obj (.cons "credentialSubject" c5Subject .nil)

def c5VcBadDate : Json :=
  .obj (.cons "credentialSubject" c5Subject
    (.cons "validUntil" (.str "not-a-date") .nil))

/-! ## Holder startup (src/agents/holder/runtime.py) -/

/-- Outcome of the `requests.post(issuer_url + "/issue_vc", ...)` call in
`execute_request_vc`: an HTTP response (status, parsed JSON list) or an
exception anywhere in the `try` block (issuer unreachable, timeout,
malformed body). -/
inductive IssuerOutcome where
  | ok (status : Nat) (body : List Json)
  | exc
  deriving DecidableEq

/-- The synthetic credential minted by the `except` fallback:
`{"type": credential_type, "credentialSubject": {"id": wallet.did},
"mock": True}`. -/
def holder_mock_vc (did credential_type : String) : Json :=
  .obj (.cons "type" (.str credential_type)
    (.cons "credentialSubject" (.obj (.cons "id" (.str did) .nil))
    (.cons "mock" (.bool true) .nil)))

/-- Model of the Holder's `execute_request_vc(issuer_url,
credential_type)`: returns the (success, message) pair and the wallet's
credential list after the call.  A non-200 response is the only failing
outcome; *any* exception falls back to simulating a credential. -/
def execute_request_vc (outcome : IssuerOutcome) (did credential_type : String)
    (vcs : List Json) : (Bool × String) × List Json :=
  match outcome with
  | .ok 200 body => ((true, "Received " ++ toString body.length ++ " VCs"), vcs ++ body)
  | .ok status _ => ((false, "Issuer Error: " ++ toString status), vcs)
  | .exc => ((true, "VC Simulated"), vcs ++ [holder_mock_vc did credential_type])

inductive StartupResult where
  | proceeds (vcs : List Json)
  | fatalExit
  deriving DecidableEq

/-- Model of `perform_startup_check()`: load local credentials if any
file matches, otherwise request `Audit_License` from the default issuer
and `sys.exit(1)` only when `execute_request_vc` reports failure. -/
def perform_startup_check (hasLocalVc : Bool) (loadedVcs : List Json)
    (outcome : IssuerOutcome) (did : String) : StartupResult :=
  if hasLocalVc then .proceeds loadedVcs
  else
    match execute_request_vc outcome did "Audit_License" [] with
    | ((true, _), vcs) => .proceeds vcs
    | ((false, _), _) => .fatalExit

/-! ## Memory-file naming (holder/runtime.py:38-44, verifier/runtime.py:80-97) -/

def os_path_join (dir fname : String) : String :=
  dir ++ "/" ++ fname

/-- Holder runtime `get_memory_file(verifier_did)`: only the counterparty
DID appears in the file name. -/
def holder_get_memory_file (dataDir verifier_did : String) : String :=
  let v := if verifier_did = "" then "unknown" else verifier_did
  os_path_join dataDir ("memory_" ++ pyReplace v ":" "_" ++ ".json")

/-- Verifier runtime `_get_memory_file(target_did)`: both the verifier's
own DID and the counterparty DID appear, joined by `_to_`. -/
def verifier_get_memory_file (dataDir : String) (walletDid : Option String)
    (targetDid : String) : String :=
  let my := walletDid.getD "unknown_verifier"
  let tg := if targetDid = "" then "unknown_holder" else targetDid
  os_path_join dataDir
    ("memory_" ++ pyReplace my ":" "_" ++ "_to_" ++ pyReplace tg ":" "_" ++ ".json")

/-! ## Large-N provisioning: implicit registration
(src/_experiments/setup_agents_N.py, register_dids_and_measure) -/

inductive RegEvent where
  | broadcast (idx : Nat)
  | awaitReceipt (idx : Nat)
  deriving DecidableEq

inductive TxOutcome where
  | success (gasUsed : Nat)
  | failBeforeSend
  | failAfterSend
  deriving DecidableEq

structure ChainEnv where
  gas_price : Nat
  pending_nonce : String → Nat

structure RegVerifier where
  id : Nat
  admin_address : String

structure RegTx where
  nonce : Nat
  toAddr : String
  value : Nat
  gas : Nat
  gasPrice : Nat
  chainId : Nat
  deriving DecidableEq

structure RegResult where
  id : Nat
  gas_used : Int
  deriving DecidableEq

/-- The transaction dict built for one implicit registration: freshly
fetched pending nonce, self-addressed, zero value, gas limit 100000, the
*current* network gas price (no multiplier), Sepolia chain id. -/
def regTx (env : ChainEnv) (v : RegVerifier) : RegTx :=
  ⟨env.pending_nonce v.admin_address, v.admin_address, 0, 100000, env.gas_price, 11155111⟩

/-- One iteration of the `for v in verifiers` loop: broadcast and *wait
for the receipt inside the same iteration*; an exception is caught and
recorded as a `-1` result without aborting. -/
def registerOne (env : ChainEnv) (outcome : Nat → TxOutcome) (v : RegVerifier) :
    List RegEvent × Option RegTx × RegResult :=
  match outcome v.id with
  | .failBeforeSend => ([], none, ⟨v.id, -1⟩)
  | .failAfterSend => ([.broadcast v.id], some (regTx env v), ⟨v.id, -1⟩)
  | .success g => ([.broadcast v.id, .awaitReceipt v.id], some (regTx env v), ⟨v.id, Int.ofNat g⟩)

/-- Model of `register_dids_and_measure(verifiers)`: the chronological
event trace, the transactions actually built, and the per-verifier
results list. -/
def register_dids_and_measure (env : ChainEnv) (outcome : Nat → TxOutcome) :
    List RegVerifier → List RegEvent × List RegTx × List RegResult
  | [] => ([], [], [])
  | v :: rest =>
    let (ev, tx, res) := registerOne env outcome v
    let (evs, txs, ress) := register_dids_and_measure env outcome rest
    (ev ++ evs, (match tx with | some t => [t] | none => []) ++ txs, res :: ress)

/-! ## Context-hash exchange (holder/runtime.py:46-60,269-313 and
verifier/runtime.py:114-124,355-380) -/

/-- Model of the Holder's `get_snapshot_hash` and the Verifier's
`_get_local_snapshot_hash` (identical code): canonical-serialize the
memory log with `sort_keys=True, separators=(',', ':'),
ensure_ascii=False` and SHA-256 it; a missing (or unreadable) file hashes
the literal `json.dumps([]) = "[]"`. -/
def get_snapshot_hash (sha : List Nat → String) (log : Option (List Json)) : String :=
  match log with
  | none => sha (utf8Bytes "[]")
  | some l => sha (utf8Bytes (snapshotSerialization (.arr (jsonListOfList l))))

/-- Model of `append_interaction`: request then response, in that order. -/
def append_interaction (log : Option (List Json)) (request_data response_data : Json) :
    List Json :=
  (log.getD []) ++ [request_data, response_data]

/-- Model of the Holder's `/context_hash` handler after its signature
check: the snapshot hash is computed over the log *before* the Brain is
consulted, and the exchange is appended only on approval, after the
response payload is built over that pre-exchange hash. -/
def handle_context_hash (sha : List Nat → String) (sign : String → String → String)
    (private_key : String) (approve : Bool) (log : Option (List Json))
    (data nonce : Json) (timestamp : Int) : Nat × Json × Option (List Json) :=
  let current_hash := get_snapshot_hash sha log
  if approve then
    let payload0 : Json := .obj (.cons "context_hash" (.str current_hash)
      (.cons "nonce" nonce (.cons "timestamp" (.num timestamp) .nil)))
    let signature := sign private_key (signingSerialization payload0)
    let payload := jSetKey payload0 "signature" (.str signature)
    (200, payload, some (append_interaction log data payload))
  else
    (403, .obj (.cons "error" (.str "Rejected") .nil), log)

/-- Model of the Verifier's `execute_context_check` after a 200 response
(`req` the signed request it sent, `data` the Holder's response body):
the local snapshot hash is computed before its own copy of the exchange
is appended; equality with the reported hash is the only pass condition.
A non-string `context_hash` makes the mismatch f-string slicing raise;
the caught exception text is abstracted as "TypeError". -/
def execute_context_check (sha : List Nat → String) (vlog : Option (List Json))
    (req data : Json) : (Bool × String) × Option (List Json) :=
  let local_hash := get_snapshot_hash sha vlog
  let newlog := some (append_interaction vlog req data)
  match jGet? data "context_hash" with
  | some (.str r) =>
    if r = local_hash then ((true, "Match"), newlog)
    else ((false, "Mismatch (L:" ++ String.mk (local_hash.data.take 6) ++ " R:" ++
      String.mk (r.data.take 6) ++ ")"), newlog)
  | _ => ((false, "TypeError"), newlog)

theorem escapeChar_ascii_eq (c : Char) (h : c.toNat ≤ 126) :
    escapeChar true c = escapeChar false c := by
  have hd : decide (126 < c.toNat) = false := by
    simp only [decide_eq_false_iff_not]
    omega
  unfold escapeChar
  simp only [hd, Bool.and_false, Bool.false_and]

theorem encodeStringPy_ascii_eq (s : String) (h : s.data.all (fun c => c.toNat ≤ 126) = true) :
    encodeStringPy true s = encodeStringPy false s := by
  unfold encodeStringPy
  have hmap : List.map (escapeChar true) s.data = List.map (escapeChar false) s.data := by
    apply List.map_congr_left
    intro c hc
    exact escapeChar_ascii_eq c (by
      have := List.all_eq_true.mp h c hc
      exact of_decide_eq_true this)
  rw [hmap]

mutual

theorem dumpsVal_ascii_eq (v : Json) (h : jsonAsciiOnly v = true) :
    dumpsVal true v = dumpsVal false v :=
  match v, h with
  | .null, _ => rfl
  | .bool true, _ => rfl
  | .bool false, _ => rfl
  | .num _, _ => rfl
  | .str s, h => by
    simp only [jsonAsciiOnly] at h
    simp only [dumpsVal]
    exact encodeStringPy_ascii_eq s h
  | .arr .nil, _ => rfl
  | .arr (.cons hd tl), h => by
    simp only [jsonAsciiOnly, jsonListAsciiOnly, Bool.and_eq_true] at h
    simp only [dumpsVal, dumpsVal_ascii_eq hd h.1, dumpsListRest_ascii_eq tl h.2]
  | .obj .nil, _ => rfl
  | .obj (.cons k v2 tl), h => by
    simp only [jsonAsciiOnly, jsonObjAsciiOnly, Bool.and_eq_true] at h
    simp only [dumpsVal, encodeStringPy_ascii_eq k h.1.1, dumpsVal_ascii_eq v2 h.1.2,
      dumpsObjRest_ascii_eq tl h.2]

theorem dumpsListRest_ascii_eq (xs : JsonList) (h : jsonListAsciiOnly xs = true) :
    dumpsListRest true xs = dumpsListRest false xs :=
  match xs, h with
  | .nil, _ => rfl
  | .cons hd tl, h => by
    simp only [jsonListAsciiOnly, Bool.and_eq_true] at h
    simp only [dumpsListRest, dumpsVal_ascii_eq hd h.1, dumpsListRest_ascii_eq tl h.2]

theorem dumpsObjRest_ascii_eq (fs : JsonObj) (h : jsonObjAsciiOnly fs = true) :
    dumpsObjRest true fs = dumpsObjRest false fs :=
  match fs, h with
  | .nil, _ => rfl
  | .cons k v2 tl, h => by
    simp only [jsonObjAsciiOnly, Bool.and_eq_true] at h
    simp only [dumpsObjRest, encodeStringPy_ascii_eq k h.1.1, dumpsVal_ascii_eq v2 h.1.2,
      dumpsObjRest_ascii_eq tl h.2]

end

theorem objInsert_ascii (k : String) (v : Json) (fs : JsonObj)
    (hk : k.data.all (fun c => c.toNat ≤ 126) = true) (hv : jsonAsciiOnly v = true)
    (hfs : jsonObjAsciiOnly fs = true) :
    jsonObjAsciiOnly (objInsert k v fs) = true :=
  match fs, hfs with
  | .nil, _ => by
    simp only [objInsert, jsonObjAsciiOnly, hk, hv, Bool.and_self, Bool.and_true]
  | .cons k2 v2 tl, hfs => by
    simp only [jsonObjAsciiOnly, Bool.and_eq_true] at hfs
    by_cases hlt : pyStrLt k k2 = true
    · simp only [objInsert, hlt, if_true, jsonObjAsciiOnly, hk, hv, hfs.1.1, hfs.1.2, hfs.2,
        Bool.and_self, Bool.and_true, Bool.true_and]
    · simp only [objInsert, hlt, Bool.false_eq_true, if_false, jsonObjAsciiOnly, hfs.1.1,
        hfs.1.2, objInsert_ascii k v tl hk hv hfs.2, Bool.and_self, Bool.and_true,
        Bool.true_and]

theorem objSortFields_ascii (fs : JsonObj) (h : jsonObjAsciiOnly fs = true) :
    jsonObjAsciiOnly (objSortFields fs) = true :=
  match fs, h with
  | .nil, h => h
  | .cons k v tl, h => by
    simp only [jsonObjAsciiOnly, Bool.and_eq_true] at h
    simpa [objSortFields] using
      objInsert_ascii k v _ h.1.1 h.1.2 (objSortFields_ascii tl h.2)

mutual

theorem sortAllKeys_ascii (v : Json) (h : jsonAsciiOnly v = true) :
    jsonAsciiOnly (sortAllKeys v) = true :=
  match v, h with
  | .null, _ => rfl
  | .bool _, _ => rfl
  | .num _, _ => rfl
  | .str _, h => h
  | .arr xs, h => by
    simp only [jsonAsciiOnly] at h
    simpa [sortAllKeys, jsonAsciiOnly] using sortAllKeysList_ascii xs h
  | .obj fs, h => by
    simp only [jsonAsciiOnly] at h
    simpa [sortAllKeys, jsonAsciiOnly] using
      objSortFields_ascii _ (sortAllKeysObj_ascii fs h)

theorem sortAllKeysList_ascii (xs : JsonList) (h : jsonListAsciiOnly xs = true) :
    jsonListAsciiOnly (sortAllKeysList xs) = true :=
  match xs, h with
  | .nil, _ => rfl
  | .cons hd tl, h => by
    simp only [jsonListAsciiOnly, Bool.and_eq_true] at h
    simp only [sortAllKeysList, jsonListAsciiOnly, sortAllKeys_ascii hd h.1,
      sortAllKeysList_ascii tl h.2, Bool.and_self]

theorem sortAllKeysObj_ascii (fs : JsonObj) (h : jsonObjAsciiOnly fs = true) :
    jsonObjAsciiOnly (sortAllKeysObj fs) = true :=
  match fs, h with
  | .nil, _ => rfl
  | .cons k v tl, h => by
    simp only [jsonObjAsciiOnly, Bool.and_eq_true] at h
    simp only [sortAllKeysObj, jsonObjAsciiOnly, h.1.1, sortAllKeys_ascii v h.1.2,
      sortAllKeysObj_ascii tl h.2, Bool.and_self, Bool.and_true, Bool.true_and]

end

/-- Claim C1 (amended): the byte sequence used as VC/VP signing input
(`signingSerialization`, i.e. `json.dumps(..., sort_keys=True,
separators=(',', ':'))` with the default `ensure_ascii=True`) coincides
with the snapshot-hash serialization of `calculate_memory_hash`
(`snapshotSerialization`, which passes `ensure_ascii=False`) exactly for
values all of whose strings and keys are ASCII; non-ASCII characters are
`\uXXXX`-escaped on the signing side but preserved on the snapshot side,
so for such values the byte sequences differ (see the counterexample). -/
theorem C1_signing_vs_snapshot_serialization (v : Json) (h : jsonAsciiOnly v = true) :
    utf8Bytes (signingSerialization v) = utf8Bytes (snapshotSerialization v) := by
  unfold signingSerialization snapshotSerialization pyDumpsCanonical
  rw [dumpsVal_ascii_eq _ (sortAllKeys_ascii v h)]

/-- Claim C1 witness: concrete ASCII-only object, serialized identically. -/
theorem C1_witness :
    jsonAsciiOnly (Json.obj (.cons "b" (.str "x") (.cons "a" (.num 1) .nil))) = true ∧
      utf8Bytes (signingSerialization (Json.obj (.cons "b" (.str "x")
          (.cons "a" (.num 1) .nil)))) =
        utf8Bytes (snapshotSerialization (Json.obj (.cons "b" (.str "x")
          (.cons "a" (.num 1) .nil)))) :=
  ⟨by decide, C1_signing_vs_snapshot_serialization _ (by decide)⟩

/-- Claim C1 counterexample: for the JSON string "é" the signing input is
the bytes of `"é"` while the snapshot serialization keeps the UTF-8
bytes of `é`: the claimed byte-for-byte equality fails. -/
theorem C1_counterexample :
    utf8Bytes (signingSerialization (Json.str "é")) ≠
      utf8Bytes (snapshotSerialization (Json.str "é")) := by
  decide

/-- Claim C4 (amended): `_verify_tool_outputs` passes iff (a) the expected
hash appears verbatim in the response text, and (b) a `YYYY-MM-DD
HH:MM:SS`-shaped timestamp occurs in the text and is *either* within 120
seconds of the current time *or fails to parse*: a matched-but-unparseable
timestamp is only labelled `Time Parse Err` and does not clear `passed`,
contrary to the claim's final clause (see the counterexample). -/
theorem C4_verify_tool_outputs_pass_iff (now : Int) (txt h : String) :
    (verify_tool_outputs now txt h).1 = true ↔
      (pyInStr h txt = true ∧ ∃ ts, reSearchTimestamp txt = some ts ∧
        (strptimeYmdHmsUtc ts = none ∨
          ∃ t, strptimeYmdHmsUtc ts = some t ∧ (now - t).natAbs ≤ 120)) := by
  unfold verify_tool_outputs
  cases hsearch : reSearchTimestamp txt with
  | none => simp [hsearch]
  | some ts =>
    cases hparse : strptimeYmdHmsUtc ts with
    | none => simp [hsearch, hparse]
    | some t =>
      by_cases hfresh : (now - t).natAbs ≤ 120
      · simp [hsearch, hparse, hfresh]
      · simp [hsearch, hparse, hfresh]

/-- Claim C4 counterexample: the response text contains the expected hash
and a regex-matched timestamp (`2024-02-30`, an impossible date) that is
not parseable, yet `_verify_tool_outputs` returns pass — refuting the
claim that an unparseable matched timestamp cannot pass. -/
theorem C4_counterexample :
    (verify_tool_outputs 0 "abc123 2024-02-30 12:00:00" "abc123").1 = true ∧
      reSearchTimestamp "abc123 2024-02-30 12:00:00" = some "2024-02-30 12:00:00" ∧
      strptimeYmdHmsUtc "2024-02-30 12:00:00" = none := by
  decide

/-- Claim C6 (confirmed): the probe payload's `timeout_ms` is
`2000 + 50·len(input_text) + (2000 if any required tool else 0)` clamped
to `[3000, 100000]`; in particular length 10 with no required tool gives
exactly 3000 and length 2000 with a required tool gives exactly 100000. -/
theorem C6_probe_timeout :
    (∀ (sha : List Nat → String) (tpl : ProbeTemplate) (inp : ProbeInput)
      (did uuid : String) (ts : Int),
      (construct_probe_payload sha tpl inp did uuid ts).1.timeout_ms =
        max 3000 (min (2000 + 50 * inp.text.length +
          (if tpl.required_tool_names = [] then 0 else 2000)) 100000)) ∧
    (construct_probe_payload (fun _ => "") ⟨"\x7b\x7binput_text\x7d\x7d", []⟩
      ⟨"0123456789"⟩ "d" "u" 0).1.timeout_ms = 3000 ∧
    (construct_probe_payload (fun _ => "") ⟨"\x7b\x7binput_text\x7d\x7d", ["sha256_tool"]⟩
      ⟨String.mk (List.replicate 2000 'a')⟩ "d" "u" 0).1.timeout_ms = 100000 := by
  refine ⟨fun sha tpl inp did uuid ts => ?_, by decide, ?_⟩
  · simp only [construct_probe_payload]
    cases htl : tpl.required_tool_names with
    | nil => simp [htl, Nat.mul_comm]
    | cons a l => simp [htl, Nat.mul_comm, List.isEmpty]
  · simp only [construct_probe_payload]
    norm_num [String.length, List.isEmpty]

theorem cacheCoherent_nil (env : ValidatorEnv) : CacheCoherent env [] := by
  intro d doc h
  simp at h

theorem cacheLookup_coherent (env : ValidatorEnv) (cache : DidCache)
    (h : CacheCoherent env cache) (did : String) (doc : Json)
    (hl : cacheLookup cache did = some doc) : env.resolveDid did = some doc := by
  induction cache with
  | nil => simp [cacheLookup] at hl
  | cons p rest ih =>
    obtain ⟨d, dd⟩ := p
    by_cases hd : d = did
    · subst hd
      simp [cacheLookup] at hl
      subst hl
      exact h d dd (by simp)
    · simp [cacheLookup, hd] at hl
      exact ih (fun d2 doc2 hm => h d2 doc2 (List.mem_cons_of_mem _ hm)) hl

theorem resolve_did_coherent (env : ValidatorEnv) (cache : DidCache) (did : String)
    (h : CacheCoherent env cache) :
    ∃ cache2, resolve_did env cache did = (env.resolveDid did, cache2) ∧
      CacheCoherent env cache2 := by
  unfold resolve_did
  cases hl : cacheLookup cache did with
  | some doc =>
    refine ⟨cache, ?_, h⟩
    rw [cacheLookup_coherent env cache h did doc hl]
  | none =>
    cases hr : env.resolveDid did with
    | some doc =>
      refine ⟨(did, doc) :: cache, rfl, ?_⟩
      intro d2 doc2 hm
      rcases List.mem_cons.mp hm with heq | hm2
      · obtain ⟨h1, h2⟩ := Prod.mk.injEq .. ▸ congrArg id heq
        simp at heq
        rw [heq.1, heq.2] at *
        exact hr
      · exact h d2 doc2 hm2
    | none => exact ⟨cache, rfl, h⟩

theorem verify_request_signature_accept (env : ValidatorEnv) (cache : DidCache)
    (text sig did addr : String) (doc : Json)
    (hcoh : CacheCoherent env cache) (hs : sig ≠ "") (hd : did ≠ "")
    (hrec : env.recoverAddr text sig = .ok addr)
    (hres : env.resolveDid did = some doc)
    (hauth : check_authorization (some doc) addr = true) :
    ∃ cache2, verify_request_signature env cache text sig did =
      (some (true, "验证通过"), cache2) ∧ CacheCoherent env cache2 := by
  obtain ⟨c2, hr2, hc2⟩ := resolve_did_coherent env cache did hcoh
  rw [hres] at hr2
  unfold verify_request_signature
  simp only [hs, hd, hrec, hr2, or_self, if_false, ite_false, hauth, if_true]
  exact ⟨c2, by simp [hs, hd, hrec, hr2, hauth], hc2⟩

theorem vcSignatureStage_accept (env : ValidatorEnv) (cache : DidCache) (vc : Json)
    (hcoh : CacheCoherent env cache) (hsig : vcSignatureAccepts env vc = true) :
    ∃ cache2, vcSignatureStage env cache vc = (.ok ⟨true, ""⟩, cache2) ∧
      CacheCoherent env cache2 := by
  unfold vcSignatureAccepts at hsig
  cases hiss : jGet? vc "issuer" with
  | none => simp [hiss] at hsig
  | some issuerVal =>
    simp only [hiss] at hsig
    cases issuerVal with
    | str issuer_did =>
      cases hpr : jGet? vc "proof" with
      | none => simp [hpr] at hsig
      | some proof =>
        simp only [hpr] at hsig
        cases hjw : jGet? proof "jws" with
        | none => simp [hjw] at hsig
        | some jwsVal =>
          simp only [hjw] at hsig
          cases jwsVal with
          | str jws =>
            simp only [Bool.and_eq_true, decide_eq_true_eq] at hsig
            obtain ⟨⟨hjne, hine⟩, hrest⟩ := hsig
            cases hrec : env.recoverAddr (signingSerialization (jsonRemoveKey vc "proof")) jws with
            | error e => simp [hrec] at hrest
            | ok addr =>
              simp only [hrec] at hrest
              cases hres : env.resolveDid issuer_did with
              | none => simp [hres] at hrest
              | some doc =>
                simp only [hres] at hrest
                obtain ⟨c2, hv, hc2⟩ := verify_request_signature_accept env cache
                  (signingSerialization (jsonRemoveKey vc "proof")) jws issuer_did addr doc
                  hcoh hjne hine hrec hres hrest
                refine ⟨c2, ?_, hc2⟩
                unfold vcSignatureStage
                rw [hiss]
                simp only [hpr, hjw, hv]
                simp
          | null => simp at hsig
          | bool b => simp at hsig
          | num n => simp at hsig
          | arr xs => simp at hsig
          | obj fs => simp at hsig
    | null => simp at hsig
    | bool b => simp at hsig
    | num n => simp at hsig
    | arr xs => simp at hsig
    | obj fs => simp at hsig

theorem verify_single_vc_accept (env : ValidatorEnv) (cache : DidCache) (now : Int)
    (vc : Json) (holder : String) (hcoh : CacheCoherent env cache)
    (hsub : vcSubjectOk vc holder = true) (hexp : vcNotExpired now vc = true)
    (hsig : vcSignatureAccepts env vc = true) :
    ∃ cache2, verify_single_vc env cache now vc holder = (.ok ⟨true, ""⟩, cache2) ∧
      CacheCoherent env cache2 := by
  unfold vcSubjectOk at hsub
  cases hcs : jGet? vc "credentialSubject" with
  | none => rw [hcs] at hsub; exact absurd hsub (by simp)
  | some cs =>
    rw [hcs] at hsub
    have hid : jGet? cs "id" = some (.str holder) := of_decide_eq_true hsub
    obtain ⟨c2, hstage, hc2⟩ := vcSignatureStage_accept env cache vc hcoh hsig
    unfold verify_single_vc
    simp only [hcs, hid]
    rw [if_neg (show ¬(Json.str holder ≠ Json.str holder) by simp)]
    unfold vcNotExpired at hexp
    cases hvu : jGet? vc "validUntil" with
    | none => exact ⟨c2, hstage, hc2⟩
    | some vu =>
      simp only [hvu] at hexp
      cases vu with
      | str s =>
        cases hpa : fromisoformatAware (pyReplace s "Z" "+00:00") with
        | none =>
          refine ⟨c2, ?_, hc2⟩
          simp only [hpa]
          exact hstage
        | some exp =>
          simp only [hpa, decide_eq_true_eq] at hexp
          refine ⟨c2, ?_, hc2⟩
          simp only [hpa, if_neg (show ¬ now > exp by omega)]
          exact hstage
      | null => exact ⟨c2, hstage, hc2⟩
      | bool b => exact ⟨c2, hstage, hc2⟩
      | num n => exact ⟨c2, hstage, hc2⟩
      | arr xs => exact ⟨c2, hstage, hc2⟩
      | obj fs => exact ⟨c2, hstage, hc2⟩

theorem verifyVcLoop_all_ok (env : ValidatorEnv) (now : Int) (holder : String)
    (xs : JsonList) (cache : DidCache) (hcoh : CacheCoherent env cache)
    (hall : vcListAllOk env now holder xs) :
    ∃ cache2, verifyVcLoop env now holder xs cache = (.ok (true, "VP Valid"), cache2) ∧
      CacheCoherent env cache2 :=
  match xs, hall with
  | .nil, _ => ⟨cache, rfl, hcoh⟩
  | .cons vc rest, hall => by
    obtain ⟨⟨h1, h2, h3⟩, hrest⟩ := hall
    obtain ⟨c2, hvc, hc2⟩ := verify_single_vc_accept env cache now vc holder hcoh h1 h2 h3
    obtain ⟨c3, hloop, hc3⟩ := verifyVcLoop_all_ok env now holder rest c2 hc2 hrest
    refine ⟨c3, ?_, hc3⟩
    unfold verifyVcLoop
    rw [hvc]
    simpa using hloop

/-- Claim C2 (amended): for a wallet whose DID resolves to an authorizing
document and whose stored credentials are all valid for that DID, (1) a VP
built by `create_vp(nonce)` passed to `verify_vp(vp, nonce)` succeeds
("VP Valid"); (2) the same VP against a different nonce fails with the
Nonce-Mismatch reason; (3) a VP whose `verifiableCredential` list was
tampered with after signing (e.g. a changed `credentialSubject.id`) does
*not* fail with a Subject-Mismatch reason: the VP signature covers the
credential list, the recovered address is no longer authorized, and since
the fall-through path of `verify_request_signature` returns `None`,
`verify_vp` raises a `TypeError` while unpacking it. -/
theorem C2_vp_roundtrip (env : ValidatorEnv) (sign : String → String → String)
    (w : IdentityWallet) (nonce nonce2 created : String) (now : Int)
    (addrW : String) (doc : Json)
    (hn2 : nonce2 ≠ nonce)
    (hsg : sign w.private_key (signingSerialization (vpPayload w)) ≠ "")
    (hdid : w.did ≠ "")
    (hrec : env.recoverAddr (signingSerialization (vpPayload w))
      (sign w.private_key (signingSerialization (vpPayload w))) = .ok addrW)
    (hres : env.resolveDid w.did = some doc)
    (hauth : check_authorization (some doc) addrW = true)
    (hvcs : vcListAllOk env now w.did (jsonListOfList w.my_vcs)) :
    (verify_vp env now (create_vp sign w nonce created) nonce []).1 =
      .ok (true, "VP Valid") ∧
    (verify_vp env now (create_vp sign w nonce created) nonce2 []).1 =
      .ok (false, "Nonce mismatch: expected " ++ nonce2 ++ ", got " ++ nonce) ∧
    (∀ (newVcs : JsonList) (addrBad : String),
      env.recoverAddr
          (signingSerialization (jsonRemoveKey
            (jSetKey (create_vp sign w nonce created) "verifiableCredential" (.arr newVcs))
            "proof"))
          (sign w.private_key (signingSerialization (vpPayload w))) = .ok addrBad →
      check_authorization (some doc) addrBad = false →
      (verify_vp env now
        (jSetKey (create_vp sign w nonce created) "verifiableCredential" (.arr newVcs))
        nonce []).1 = .error .typeError) := by
  have hproof : jGet? (create_vp sign w nonce created) "proof" =
      some (.obj (.cons "type" (.str "EcdsaSecp256k1RecoverySignature2020")
        (.cons "created" (.str created)
        (.cons "verificationMethod" (.str (w.did ++ "#delegate"))
        (.cons "proofPurpose" (.str "authentication")
        (.cons "challenge" (.str nonce)
        (.cons "jws" (.str (sign w.private_key (signingSerialization (vpPayload w))))
          .nil))))))) := by
    simp [create_vp, vpPayload, objAppendField, jGet?, objLookup]
  have hremove : jsonRemoveKey (create_vp sign w nonce created) "proof" = vpPayload w := by
    simp [create_vp, vpPayload, objAppendField, jsonRemoveKey, objRemoveKey]
  have hholder : jGet? (create_vp sign w nonce created) "holder" = some (.str w.did) := by
    simp [create_vp, vpPayload, objAppendField, jGet?, objLookup]
  have hvcget : jGet? (create_vp sign w nonce created) "verifiableCredential" =
      some (.arr (jsonListOfList w.my_vcs)) := by
    simp [create_vp, vpPayload, objAppendField, jGet?, objLookup]
  refine ⟨?_, ?_, ?_⟩
  · obtain ⟨c1, hv1, hc1⟩ := verify_request_signature_accept env []
      (signingSerialization (vpPayload w))
      (sign w.private_key (signingSerialization (vpPayload w))) w.did addrW doc
      (cacheCoherent_nil env) hsg hdid hrec hres hauth
    obtain ⟨c2, hloop, _⟩ := verifyVcLoop_all_ok env now w.did
      (jsonListOfList w.my_vcs) c1 hc1 hvcs
    unfold verify_vp
    simp only [hproof, hholder, hvcget, hremove, Option.getD]
    simp [jGet?, objLookup, hv1, hloop]
  · unfold verify_vp
    simp only [hproof, hholder, hvcget, hremove, Option.getD]
    simp [jGet?, objLookup, hn2, Ne.symm hn2, pyFStrOptJson]
  · intro newVcs addrBad hrecT hauthT
    have hproofT : jGet? (jSetKey (create_vp sign w nonce created)
        "verifiableCredential" (.arr newVcs)) "proof" =
        some (.obj (.cons "type" (.str "EcdsaSecp256k1RecoverySignature2020")
          (.cons "created" (.str created)
          (.cons "verificationMethod" (.str (w.did ++ "#delegate"))
          (.cons "proofPurpose" (.str "authentication")
          (.cons "challenge" (.str nonce)
          (.cons "jws" (.str (sign w.private_key (signingSerialization (vpPayload w))))
            .nil))))))) := by
      simp [create_vp, vpPayload, objAppendField, jSetKey, objSetKey, jGet?, objLookup]
    have hholderT : jGet? (jSetKey (create_vp sign w nonce created)
        "verifiableCredential" (.arr newVcs)) "holder" = some (.str w.did) := by
      simp [create_vp, vpPayload, objAppendField, jSetKey, objSetKey, jGet?, objLookup]
    unfold verify_vp
    simp only [hproofT, hholderT, Option.getD]
    simp only [jGet?, objLookup, String.reduceEq, reduceIte, if_true, ite_true, if_false,
      ite_false, reduceCtorEq]
    unfold verify_request_signature
    simp only [hsg, hdid, hrecT, or_self, if_false, ite_false]
    have hres0 : resolve_did env [] w.did = (some doc, [(w.did, doc)]) := by
      simp [resolve_did, cacheLookup, hres]
    simp only [hres0, hauthT, Bool.false_eq_true, if_false, ite_false]
    simp only [cacheLookup, if_pos rfl, Option.isSome_some, if_true, ite_true]
    have hres1 : resolve_did env (cacheRemove [(w.did, doc)] w.did) w.did =
        (some doc, [(w.did, doc)]) := by
      simp [cacheRemove, resolve_did, cacheLookup, hres]
    simp only [hres1, hauthT, Bool.false_eq_true, if_false, ite_false]
    simp

/-- Claim C2 witness: the round-trip and nonce-mismatch parts of
`C2_vp_roundtrip` at the concrete toy scenario. -/
theorem C2_witness :
    (verify_vp toyEnv 1700000000 (create_vp toySign c2Wallet "n1" "t1") "n1" []).1 =
      .ok (true, "VP Valid") ∧
    (verify_vp toyEnv 1700000000 (create_vp toySign c2Wallet "n1" "t1") "n2" []).1 =
      .ok (false, "Nonce mismatch: expected " ++ "n2" ++ ", got " ++ "n1") :=
  have h := C2_vp_roundtrip toyEnv toySign c2Wallet "n1" "n2" "t1" 1700000000 "0xaa" docAA
    (by decide) (by decide) (by decide) (by decide) (by decide) (by decide)
    ⟨⟨by decide, by decide, by decide⟩, trivial⟩
  ⟨h.1, h.2.1⟩

/-- Claim C2 counterexample: the VP produced by `create_vp` with one
`verifiableCredential` entry's `credentialSubject.id` switched to another
DID does not fail with a Subject-Mismatch reason — `verify_vp` raises a
`TypeError` (unpacking the `None` that `verify_request_signature` returns
for the now-unauthorized VP signature). -/
theorem C2_counterexample :
    (verify_vp toyEnv 1700000000
      (jSetKey (create_vp toySign c2Wallet "n1" "t1") "verifiableCredential"
        (.arr c2TamperedVcs)) "n1" []).1 = .error .typeError := by
  decide

/-- Claim C3 (code bug): `verify_request_signature` evaluated at an input
whose claimed DID resolves to a document that does not authorize the
recovered address returns `None` — not the documented (bool, reason)
pair: the unauthorized-signer `return` is dead code behind the cache
retry, whose failure path falls off the end of the function. -/
theorem C3_returns_none_on_unauthorized :
    (verify_request_signature toyEnv [] "hello" "0xsig" "did:ethr:sepolia:0xaa").1 =
      none := by
  decide

/-- Claim C5 (confirmed): in `_verify_single_vc` (subject already
matching), a credential whose parsed `validUntil` is strictly before the
current UTC time fails with the Credential-Expired error; one with
`validUntil` in the future, one lacking `validUntil`, and one whose
`validUntil` fails to parse (warning only) all proceed unchanged to the
issuer-and-signature stage `vcSignatureStage` — none of them is failed on
expiry grounds. -/
theorem C5_expiry_semantics (env : ValidatorEnv) (cache : DidCache) (now : Int)
    (vc : Json) (holder : String) (cs : Json)
    (hcs : jGet? vc "credentialSubject" = some cs)
    (hid : jGet? cs "id" = some (.str holder)) :
    (∀ s t, jGet? vc "validUntil" = some (.str s) →
      fromisoformatAware (pyReplace s "Z" "+00:00") = some t → t < now →
      verify_single_vc env cache now vc holder = (.ok ⟨false, "VC 已过期"⟩, cache)) ∧
    (∀ s t, jGet? vc "validUntil" = some (.str s) →
      fromisoformatAware (pyReplace s "Z" "+00:00") = some t → now ≤ t →
      verify_single_vc env cache now vc holder = vcSignatureStage env cache vc) ∧
    (jGet? vc "validUntil" = none →
      verify_single_vc env cache now vc holder = vcSignatureStage env cache vc) ∧
    (∀ s, jGet? vc "validUntil" = some (.str s) →
      fromisoformatAware (pyReplace s "Z" "+00:00") = none →
      verify_single_vc env cache now vc holder = vcSignatureStage env cache vc) := by
  refine ⟨?_, ?_, ?_, ?_⟩
  · intro s t hvu hpa hlt
    unfold verify_single_vc
    simp only [hcs, hid]
    rw [if_neg (show ¬(Json.str holder ≠ Json.str holder) by simp)]
    simp only [hvu, hpa, if_pos (show now > t by omega)]
  · intro s t hvu hpa hle
    unfold verify_single_vc
    simp only [hcs, hid]
    rw [if_neg (show ¬(Json.str holder ≠ Json.str holder) by simp)]
    simp only [hvu, hpa, if_neg (show ¬ now > t by omega)]
  · intro hvu
    unfold verify_single_vc
    simp only [hcs, hid]
    rw [if_neg (show ¬(Json.str holder ≠ Json.str holder) by simp)]
    simp only [hvu]
  · intro s hvu hpa
    unfold verify_single_vc
    simp only [hcs, hid]
    rw [if_neg (show ¬(Json.str holder ≠ Json.str holder) by simp)]
    simp only [hvu, hpa]

/-- Claim C5 witness: the four expiry behaviours at concrete credentials
(now = 1700000000, i.e. 2023-11-14T22:13:20Z). -/
theorem C5_witness :
    verify_single_vc toyEnv [] 1700000000 c5VcExpired "did:ethr:sepolia:0xaa" =
      (.ok ⟨false, "VC 已过期"⟩, []) ∧
    verify_single_vc toyEnv [] 1700000000 c5VcFuture "did:ethr:sepolia:0xaa" =
      vcSignatureStage toyEnv [] c5VcFuture ∧
    verify_single_vc toyEnv [] 1700000000 c5VcNoExpiry "did:ethr:sepolia:0xaa" =
      vcSignatureStage toyEnv [] c5VcNoExpiry ∧
    verify_single_vc toyEnv [] 1700000000 c5VcBadDate "did:ethr:sepolia:0xaa" =
      vcSignatureStage toyEnv [] c5VcBadDate :=
  ⟨(C5_expiry_semantics toyEnv [] 1700000000 c5VcExpired "did:ethr:sepolia:0xaa"
      c5Subject rfl rfl).1 "2020-01-01T00:00:00Z" 1577836800 rfl (by decide) (by decide),
   (C5_expiry_semantics toyEnv [] 1700000000 c5VcFuture "did:ethr:sepolia:0xaa"
      c5Subject rfl rfl).2.1 "2030-01-01T00:00:00Z" 1893456000 rfl (by decide) (by decide),
   (C5_expiry_semantics toyEnv [] 1700000000 c5VcNoExpiry "did:ethr:sepolia:0xaa"
      c5Subject rfl rfl).2.2.1 rfl,
   (C5_expiry_semantics toyEnv [] 1700000000 c5VcBadDate "did:ethr:sepolia:0xaa"
      c5Subject rfl rfl).2.2.2 "not-a-date" rfl (by decide)⟩

/-- Claim C7 (amended): at Holder startup with no local credential, an
unreachable issuer (exception) *always* falls back to minting the
synthetic mock credential — there is no "configured to simulate" gate —
and only an issuer HTTP rejection (non-200) causes the fatal exit; a 200
response is accepted as-is (a 200 with an empty list brings the service
up with zero credentials). -/
theorem C7_startup_semantics :
    (∀ did, perform_startup_check false [] .exc did =
      .proceeds [holder_mock_vc did "Audit_License"]) ∧
    (∀ did status body, status ≠ 200 →
      perform_startup_check false [] (.ok status body) did = .fatalExit) ∧
    (∀ did body, perform_startup_check false [] (.ok 200 body) did = .proceeds body) ∧
    (∀ loaded did outc, perform_startup_check true loaded outc did = .proceeds loaded) := by
  refine ⟨fun did => rfl, fun did status body h => ?_, fun did body => rfl,
    fun loaded did outc => rfl⟩
  simp only [perform_startup_check, execute_request_vc]
  split
  · simp_all
  · rfl

/-- Claim C7 witness: a 403 rejection is fatal. -/
theorem C7_witness :
    perform_startup_check false [] (.ok 403 []) "did:ethr:sepolia:0xaa" = .fatalExit :=
  C7_startup_semantics.2.1 "did:ethr:sepolia:0xaa" 403 [] (by decide)

/-- Claim C7 counterexample: with no local credential and the issuer
unreachable (the `except` branch), the service proceeds with the mock
credential instead of exiting fatally — there is no simulate
configuration guarding this fallback. -/
theorem C7_counterexample :
    perform_startup_check false [] .exc "did:ethr:sepolia:0xaa" =
      .proceeds [holder_mock_vc "did:ethr:sepolia:0xaa" "Audit_License"] ∧
    perform_startup_check false [] .exc "did:ethr:sepolia:0xaa" ≠ .fatalExit := by
  decide

/-- Claim C8 (amended): the Verifier Runtime persists its interaction log
as `memory_<selfDidSafe>_to_<counterpartyDidSafe>.json` (`:` replaced by
`_`), but the Holder Runtime names its log `memory_<counterpartyDidSafe>.json`:
the Holder's file name embeds only the counterparty DID, not its own. -/
theorem C8_memory_file_names (dir selfDid target vdid : String) :
    (target ≠ "" → verifier_get_memory_file dir (some selfDid) target =
      dir ++ "/" ++ ("memory_" ++ pyReplace selfDid ":" "_" ++ "_to_" ++
        pyReplace target ":" "_" ++ ".json")) ∧
    (vdid ≠ "" → holder_get_memory_file dir vdid =
      dir ++ "/" ++ ("memory_" ++ pyReplace vdid ":" "_" ++ ".json")) := by
  constructor
  · intro h
    simp [verifier_get_memory_file, os_path_join, h]
  · intro h
    simp [holder_get_memory_file, os_path_join, h]

/-- Claim C8 witness: concrete verifier and holder file names. -/
theorem C8_witness :
    ("did:ethr:sepolia:0xH" ≠ "" ∧
      verifier_get_memory_file "data" (some "did:ethr:sepolia:0xV") "did:ethr:sepolia:0xH" =
        "data" ++ "/" ++ ("memory_" ++ pyReplace "did:ethr:sepolia:0xV" ":" "_" ++ "_to_" ++
          pyReplace "did:ethr:sepolia:0xH" ":" "_" ++ ".json")) ∧
    ("did:ethr:sepolia:0xV" ≠ "" ∧
      holder_get_memory_file "data" "did:ethr:sepolia:0xV" =
        "data" ++ "/" ++ ("memory_" ++ pyReplace "did:ethr:sepolia:0xV" ":" "_" ++ ".json")) :=
  ⟨⟨by decide, (C8_memory_file_names "data" "did:ethr:sepolia:0xV" "did:ethr:sepolia:0xH"
      "x").1 (by decide)⟩,
   ⟨by decide, (C8_memory_file_names "data" "x" "x" "did:ethr:sepolia:0xV").2 (by decide)⟩⟩

/-- Claim C8 counterexample: the Holder's memory file for counterparty
`did:ethr:sepolia:0xV` is `data/memory_did_ethr_sepolia_0xV.json` — it
does not follow the claimed `memory_<self>_to_<counterparty>.json`
pattern (no `_to_` at all), so it cannot embed the agent's own DID. -/
theorem C8_counterexample :
    holder_get_memory_file "data" "did:ethr:sepolia:0xV" =
      "data/memory_did_ethr_sepolia_0xV.json" ∧
    pyInStr "_to_" "data/memory_did_ethr_sepolia_0xV.json" = false := by
  decide

/-- Claim C9 (amended): the implicit-registration step handles the
transactions strictly sequentially — each iteration broadcasts and then
immediately awaits that transaction's receipt before the next broadcast
— with each transaction carrying its own freshly fetched pending nonce,
a gas price of exactly the current network price (no 1.5 multiplier),
and per-transaction failures recorded individually without aborting the
batch. -/
theorem C9_registration_sequential (env : ChainEnv) (outcome : Nat → TxOutcome) :
    (∀ vs : List RegVerifier,
      ((register_dids_and_measure env outcome vs).2.2).length = vs.length) ∧
    (∀ v : RegVerifier, regTx env v =
      ⟨env.pending_nonce v.admin_address, v.admin_address, 0, 100000,
        env.gas_price, 11155111⟩) ∧
    (∀ (v : RegVerifier) (vs : List RegVerifier) (g : Nat), outcome v.id = .success g →
      (register_dids_and_measure env outcome (v :: vs)).1 =
        .broadcast v.id :: .awaitReceipt v.id ::
          (register_dids_and_measure env outcome vs).1) := by
  refine ⟨?_, fun v => rfl, ?_⟩
  · intro vs
    induction vs with
    | nil => rfl
    | cons v rest ih =>
      simp only [register_dids_and_measure, List.length_cons, ih]
  · intro v vs g h
    simp [register_dids_and_measure, registerOne, h]

/-- Claim C9 witness: with two all-successful verifiers the trace is
broadcast-await-broadcast-await. -/
theorem C9_witness :
    (register_dids_and_measure ⟨7, fun _ => 5⟩ (fun _ => .success 21000)
      [⟨1, "0xa"⟩, ⟨2, "0xb"⟩]).1 =
      [.broadcast 1, .awaitReceipt 1, .broadcast 2, .awaitReceipt 2] := by
  rw [(C9_registration_sequential ⟨7, fun _ => 5⟩ (fun _ => .success 21000)).2.2
    ⟨1, "0xa"⟩ [⟨2, "0xb"⟩] 21000 rfl]
  decide

/-- Claim C9 counterexample: for two successful registrations the trace
interleaves (`awaitReceipt 1` precedes `broadcast 2`), refuting
"all broadcasts first, then all receipts in a second pass"; and the gas
price used is the unmodified network price 7, not 1.5 × 7. -/
theorem C9_counterexample :
    (register_dids_and_measure ⟨7, fun _ => 5⟩ (fun _ => .success 21000)
      [⟨1, "0xa"⟩, ⟨2, "0xb"⟩]).1 ≠
      [.broadcast 1, .broadcast 2, .awaitReceipt 1, .awaitReceipt 2] ∧
    ((register_dids_and_measure ⟨7, fun _ => 5⟩ (fun _ => .success 21000)
      [⟨1, "0xa"⟩, ⟨2, "0xb"⟩]).2.1).map RegTx.gasPrice = [7, 7] := by
  decide

/-- Claim C10 (confirmed): during a context check both parties hash the
interaction log as it stood *before* the exchange is appended: the
Holder's 200 response carries `get_snapshot_hash` of its pre-exchange
log and only then appends (request, response); on rejection nothing is
appended; the Verifier compares against its own pre-append local hash and
appends its copy afterwards.  Hence two sides whose prior logs are equal
compare equal hashes (the check passes with "Match") even though both
then record the exchange. -/
theorem C10_context_hash_snapshot (sha : List Nat → String)
    (sign : String → String → String) (pk : String) (hLog vLog : List Json)
    (data req nonce : Json) (ts : Int) (heq : hLog = vLog) :
    (handle_context_hash sha sign pk true (some hLog) data nonce ts).1 = 200 ∧
    jGet? (handle_context_hash sha sign pk true (some hLog) data nonce ts).2.1
        "context_hash" = some (.str (get_snapshot_hash sha (some hLog))) ∧
    (handle_context_hash sha sign pk true (some hLog) data nonce ts).2.2 =
      some (hLog ++ [data,
        (handle_context_hash sha sign pk true (some hLog) data nonce ts).2.1]) ∧
    (execute_context_check sha (some vLog) req
        (handle_context_hash sha sign pk true (some hLog) data nonce ts).2.1).1 =
      (true, "Match") ∧
    (execute_context_check sha (some vLog) req
        (handle_context_hash sha sign pk true (some hLog) data nonce ts).2.1).2 =
      some (vLog ++ [req,
        (handle_context_hash sha sign pk true (some hLog) data nonce ts).2.1]) ∧
    (handle_context_hash sha sign pk false (some hLog) data nonce ts).2.2 = some hLog := by
  subst heq
  refine ⟨rfl, ?_, ?_, ?_, ?_, rfl⟩
  · simp [handle_context_hash, jGet?, jSetKey, objSetKey, objLookup]
  · simp [handle_context_hash, append_interaction]
  · simp [handle_context_hash, execute_context_check, jGet?, jSetKey, objSetKey, objLookup,
      append_interaction]
  · simp [handle_context_hash, execute_context_check, jGet?, jSetKey, objSetKey, objLookup,
      append_interaction]

/-- Claim C10 witness: concrete equal prior logs, toy signing, a length
function standing in for SHA-256. -/
theorem C10_witness :
    (execute_context_check (fun bs => toString bs.length) (some [Json.str "m"])
        (Json.str "req")
        (handle_context_hash (fun bs => toString bs.length) toySign "kh" true
          (some [Json.str "m"]) (Json.str "data") (Json.str "n1") 5).2.1).1 =
      (true, "Match") :=
  (C10_context_hash_snapshot (fun bs => toString bs.length) toySign "kh"
    [Json.str "m"] [Json.str "m"] (Json.str "data") (Json.str "req")
    (Json.str "n1") 5 rfl).2.2.2.1
